import Mathlib

/-!
Verification of the Aura Farm image transformer (src/app.py).

The file embeds the behavioural core of the program as pure Lean
functions: the visitor tracker (track_visitor), the prompt resolver
(get_prompt_for_transformation), the transformation client
(transform_image_with_openai), the zip packaging loop of main_page, and
the submission validation dispatch of main_page.  External effects
(the JSON store file, the OpenAI service, HTTP fetches) are modelled as
explicit inputs, and the writes the code performs are returned as data.
-/

namespace Aura

/-- The JSON document persisted in visitor_data.json.  The Python dict
daily_counts is modelled as an association list in insertion order; a
Python dict cannot hold a key twice, and updates keep the slot of an
existing key while a fresh key is appended at the end, which is exactly
what the incrDaily model below does.  sessions is the JSON list of
session identifiers. -/
structure VisitorData where
  total_count : Int
  daily_counts : List (String × Int)
  sessions : List String
deriving DecidableEq, Repr

/-- The empty structure the code builds when the store file is missing
or fails to parse (app.py lines 41 and 43). -/
def emptyVisitorData : VisitorData := ⟨0, [], []⟩

/-- State of the durable store visitor_data.json as track_visitor finds
it: absent, present but unparseable (json.JSONDecodeError), or parsed
to a well-typed document. -/
inductive StoreState where
  | missing
  | corrupt
  | valid (d : VisitorData)
deriving DecidableEq, Repr

/-- Loading phase of track_visitor (app.py lines 36-43): a missing file
and a JSONDecodeError both fall back to the empty structure. -/
def loadVisitorData : StoreState → VisitorData
  | .missing => emptyVisitorData
  | .corrupt => emptyVisitorData
  | .valid d => d

/-- The dict update of app.py lines 59-62: if today is a key of
daily_counts its entry is incremented in place, otherwise a new entry
with value 1 is appended.  On an association list whose keys are
pairwise distinct (every Python dict) this is exactly the source
behaviour. -/
def incrDaily : List (String × Int) → String → List (String × Int)
  | [], today => [(today, 1)]
  | (k, v) :: rest, today =>
      if k = today then (k, v + 1) :: rest
      else (k, v) :: incrDaily rest today

/-- Key lookup in the daily_counts association list (dict access). -/
def lookupDaily : List (String × Int) → String → Option Int
  | [], _ => none
  | (k, v) :: rest, key => if k = key then some v else lookupDaily rest key

/-- Observable outcome of one track_visitor call: the in-memory
visitor_data at return time, whether the store was rewritten, the
document written when it was, and the returned total count. -/
structure TrackResult where
  data : VisitorData
  wrote : Bool
  written : Option VisitorData
  ret : Int
deriving DecidableEq, Repr

/-- track_visitor (app.py lines 30-68).  The session identifier and the
formatted current date are explicit parameters; the store content is an
explicit input and the dump to the file is returned as data. -/
def track_visitor (store : StoreState) (session_id today : String) :
    TrackResult :=
  let visitor_data := loadVisitorData store
  if session_id ∈ visitor_data.sessions then
    ⟨visitor_data, false, none, visitor_data.total_count⟩
  else
    let updated : VisitorData :=
      ⟨visitor_data.total_count + 1,
       incrDaily visitor_data.daily_counts today,
       visitor_data.sessions ++ [session_id]⟩
    ⟨updated, true, some updated, updated.total_count⟩

/-- Sum of the values of the daily_counts histogram. -/
def sumDaily (m : List (String × Int)) : Int := (m.map Prod.snd).sum

/-- The data-model invariant of the spec: total_count equals the sum of
the daily_counts values and equals the number of stored sessions. -/
def Inv (d : VisitorData) : Prop :=
  d.total_count = sumDaily d.daily_counts ∧
  d.total_count = (d.sessions.length : Int)

/-- Runs a sequence of track_visitor calls, each one loading the state
the previous call left behind (the store after a writing call holds
exactly the returned data, and an unwritten store is unchanged). -/
def runVisits : VisitorData → List (String × String) → VisitorData
  | d, [] => d
  | d, (sid, today) :: rest =>
      runVisits (track_visitor (.valid d) sid today).data rest

theorem lookupDaily_incrDaily (m : List (String × Int)) (today : String) :
    lookupDaily (incrDaily m today) today =
      some ((match lookupDaily m today with
             | some n => n
             | none => 0) + 1) := by
  induction m with
  | nil => simp [incrDaily, lookupDaily]
  | cons p rest ih =>
    obtain ⟨k, v⟩ := p
    by_cases hk : k = today
    · subst hk
      simp [incrDaily, lookupDaily]
    · simp [incrDaily, lookupDaily, hk, ih]

theorem sumDaily_incrDaily (m : List (String × Int)) (today : String) :
    sumDaily (incrDaily m today) = sumDaily m + 1 := by
  induction m with
  | nil => simp [incrDaily, sumDaily]
  | cons p rest ih =>
    obtain ⟨k, v⟩ := p
    by_cases hk : k = today
    · subst hk
      simp [incrDaily, sumDaily]
      ring
    · simp [incrDaily, sumDaily, hk] at *
      omega

/-- One track_visitor call preserves the counting invariant. -/
theorem Inv_step (d : VisitorData) (sid today : String) (h : Inv d) :
    Inv (track_visitor (StoreState.valid d) sid today).data := by
  by_cases hs : sid ∈ d.sessions
  · simpa [track_visitor, loadVisitorData, hs] using h
  · obtain ⟨h1, h2⟩ := h
    constructor
    · simp [track_visitor, loadVisitorData, hs, sumDaily_incrDaily]
      omega
    · simp [track_visitor, loadVisitorData, hs]
      omega

/-- One track_visitor call keeps the sessions list duplicate-free. -/
theorem nodup_step (d : VisitorData) (sid today : String)
    (h : d.sessions.Nodup) :
    (track_visitor (StoreState.valid d) sid today).data.sessions.Nodup := by
  by_cases hs : sid ∈ d.sessions
  · simpa [track_visitor, loadVisitorData, hs] using h
  · simp [track_visitor, loadVisitorData, hs, List.nodup_append]
    exact h

/-- C1: for every loaded store state and session identifier absent from
sessions, track_visitor appends the identifier to sessions, increments
total_count by exactly 1, increments the daily_counts entry for the
current date by 1 (initializing it to 1 when absent), writes the whole
updated structure back to the store, and returns the updated total
count. -/
theorem track_visitor_new_session (d : VisitorData) (sid today : String)
    (h : sid ∉ d.sessions) :
    (track_visitor (StoreState.valid d) sid today).data.sessions
        = d.sessions ++ [sid] ∧
    (track_visitor (StoreState.valid d) sid today).data.total_count
        = d.total_count + 1 ∧
    lookupDaily
        (track_visitor (StoreState.valid d) sid today).data.daily_counts
        today
        = some ((match lookupDaily d.daily_counts today with
                 | some n => n
                 | none => 0) + 1) ∧
    (track_visitor (StoreState.valid d) sid today).wrote = true ∧
    (track_visitor (StoreState.valid d) sid today).written
        = some (track_visitor (StoreState.valid d) sid today).data ∧
    (track_visitor (StoreState.valid d) sid today).ret
        = d.total_count + 1 := by
  simp [track_visitor, loadVisitorData, h, lookupDaily_incrDaily]

theorem track_visitor_new_session_witness :
    "s1" ∉ emptyVisitorData.sessions ∧
    ((track_visitor (StoreState.valid emptyVisitorData) "s1"
        "2025-10-12").data.sessions
        = emptyVisitorData.sessions ++ ["s1"] ∧
     (track_visitor (StoreState.valid emptyVisitorData) "s1"
        "2025-10-12").data.total_count
        = emptyVisitorData.total_count + 1 ∧
     lookupDaily
        (track_visitor (StoreState.valid emptyVisitorData) "s1"
          "2025-10-12").data.daily_counts
        "2025-10-12"
        = some ((match lookupDaily emptyVisitorData.daily_counts
                    "2025-10-12" with
                 | some n => n
                 | none => 0) + 1) ∧
     (track_visitor (StoreState.valid emptyVisitorData) "s1"
        "2025-10-12").wrote = true ∧
     (track_visitor (StoreState.valid emptyVisitorData) "s1"
        "2025-10-12").written
        = some (track_visitor (StoreState.valid emptyVisitorData) "s1"
            "2025-10-12").data ∧
     (track_visitor (StoreState.valid emptyVisitorData) "s1"
        "2025-10-12").ret
        = emptyVisitorData.total_count + 1) :=
  ⟨by decide,
   track_visitor_new_session emptyVisitorData "s1" "2025-10-12"
     (by decide)⟩

/-- C2: the invariant (total_count equals the sum of the daily_counts
values and equals the cardinality of sessions) holds after every
track_visitor call, for any sequence of calls from a state satisfying
it.  The sessions list of any state satisfying the data model is
duplicate-free, so its length is its cardinality as a set; the theorem
carries that fact along.  The empty state used for a missing or corrupt
store satisfies both hypotheses, as the witness shows. -/
theorem track_visitor_invariant (calls : List (String × String))
    (d : VisitorData) (h1 : Inv d) (h2 : d.sessions.Nodup) :
    Inv (runVisits d calls) ∧ (runVisits d calls).sessions.Nodup := by
  induction calls generalizing d with
  | nil => exact ⟨h1, h2⟩
  | cons c rest ih =>
    obtain ⟨sid, today⟩ := c
    exact ih _ (Inv_step d sid today h1) (nodup_step d sid today h2)

theorem track_visitor_invariant_witness :
    Inv emptyVisitorData ∧ emptyVisitorData.sessions.Nodup ∧
    (Inv (runVisits emptyVisitorData
        [("a", "2025-10-11"), ("a", "2025-10-12"), ("b", "2025-10-12")]) ∧
     (runVisits emptyVisitorData
        [("a", "2025-10-11"), ("a", "2025-10-12"),
         ("b", "2025-10-12")]).sessions.Nodup) :=
  ⟨⟨rfl, rfl⟩, List.nodup_nil,
   track_visitor_invariant
     [("a", "2025-10-11"), ("a", "2025-10-12"), ("b", "2025-10-12")]
     emptyVisitorData ⟨rfl, rfl⟩ List.nodup_nil⟩

/-- C3: a session identifier already contained in sessions leaves the
data unchanged and causes no store write; and whatever the starting
state, presenting the same identifier twice leaves the second call with
nothing to change and nothing to write. -/
theorem track_visitor_repeat (d : VisitorData) (sid t1 t2 : String) :
    (sid ∈ d.sessions →
      (track_visitor (StoreState.valid d) sid t1).data = d ∧
      (track_visitor (StoreState.valid d) sid t1).wrote = false ∧
      (track_visitor (StoreState.valid d) sid t1).written = none) ∧
    (track_visitor
        (StoreState.valid (track_visitor (StoreState.valid d) sid t1).data)
        sid t2).data
      = (track_visitor (StoreState.valid d) sid t1).data ∧
    (track_visitor
        (StoreState.valid (track_visitor (StoreState.valid d) sid t1).data)
        sid t2).wrote = false := by
  by_cases hs : sid ∈ d.sessions
  · refine ⟨fun _ => by simp [track_visitor, loadVisitorData, hs], ?_, ?_⟩ <;>
      simp [track_visitor, loadVisitorData, hs]
  · refine ⟨fun hs2 => absurd hs2 hs, ?_, ?_⟩ <;>
      simp [track_visitor, loadVisitorData, hs]

theorem track_visitor_repeat_witness :
    "s1" ∈ (VisitorData.mk 1 [("2025-10-11", 1)] ["s1"]).sessions ∧
    ((track_visitor
        (StoreState.valid (VisitorData.mk 1 [("2025-10-11", 1)] ["s1"]))
        "s1" "2025-10-12").data
      = VisitorData.mk 1 [("2025-10-11", 1)] ["s1"] ∧
     (track_visitor
        (StoreState.valid (VisitorData.mk 1 [("2025-10-11", 1)] ["s1"]))
        "s1" "2025-10-12").wrote = false ∧
     (track_visitor
        (StoreState.valid (VisitorData.mk 1 [("2025-10-11", 1)] ["s1"]))
        "s1" "2025-10-12").written = none) :=
  ⟨by decide,
   (track_visitor_repeat (VisitorData.mk 1 [("2025-10-11", 1)] ["s1"])
      "s1" "2025-10-12" "2025-10-13").1 (by decide)⟩

/-- C4: a missing store file and an unparseable store file both make
track_visitor behave exactly as on the empty structure, with no error
surfaced to the caller (the embedding is a total function and the
source catches json.JSONDecodeError); on the empty structure the call
counts the fresh session and returns 1. -/
theorem track_visitor_missing_or_corrupt (sid today : String) :
    track_visitor StoreState.missing sid today
        = track_visitor (StoreState.valid emptyVisitorData) sid today ∧
    track_visitor StoreState.corrupt sid today
        = track_visitor (StoreState.valid emptyVisitorData) sid today ∧
    (track_visitor StoreState.missing sid today).ret = 1 ∧
    (track_visitor StoreState.missing sid today).data
        = ⟨1, [(today, 1)], [sid]⟩ := by
  refine ⟨rfl, rfl, ?_, ?_⟩ <;>
    simp [track_visitor, loadVisitorData, emptyVisitorData, incrDaily]

/-- C10: track_visitor appends a session identifier only after checking
it is absent, so a duplicate-free sessions list stays duplicate-free,
both in the returned data and in any document written to the store. -/
theorem track_visitor_sessions_nodup (d : VisitorData) (sid today : String)
    (h : d.sessions.Nodup) :
    (track_visitor (StoreState.valid d) sid today).data.sessions.Nodup ∧
    (∀ w, (track_visitor (StoreState.valid d) sid today).written = some w →
      w.sessions.Nodup) := by
  refine ⟨nodup_step d sid today h, ?_⟩
  intro w hw
  by_cases hs : sid ∈ d.sessions
  · simp [track_visitor, loadVisitorData, hs] at hw
  · have hw2 : w = (track_visitor (StoreState.valid d) sid today).data := by
      simp [track_visitor, loadVisitorData, hs] at hw ⊢
      exact hw.symm
    rw [hw2]
    exact nodup_step d sid today h

theorem track_visitor_sessions_nodup_witness :
    (["s1", "s2"] : List String).Nodup ∧
    ((track_visitor
        (StoreState.valid (VisitorData.mk 2 [("2025-10-11", 2)] ["s1", "s2"]))
        "s3" "2025-10-12").data.sessions.Nodup ∧
     (∀ w, (track_visitor
        (StoreState.valid (VisitorData.mk 2 [("2025-10-11", 2)] ["s1", "s2"]))
        "s3" "2025-10-12").written = some w → w.sessions.Nodup)) :=
  ⟨by decide,
   track_visitor_sessions_nodup
     (VisitorData.mk 2 [("2025-10-11", 2)] ["s1", "s2"])
     "s3" "2025-10-12" (by decide)⟩

/-- get_prompt_for_transformation (app.py lines 95-112): dict lookup
with a default, modelled as the equivalent chain of key comparisons. -/
def get_prompt_for_transformation (style_type : String) : String :=
  if style_type = "Ghibli" then
    "Transform this image into Studio Ghibli animation style with vibrant colors, whimsical elements, and a dreamy atmosphere."
  else if style_type = "Minecraft" then
    "Transform this image into Minecraft style with blocky pixelated texture, bright colors, and cubic shapes."
  else if style_type = "Chicken-Jockey" then
    "Transform this image into a blocky Minecraft-style character cool green zombie riding a chicken."
  else if style_type = "Humanize" then
    "Transform this image into a realistic human-like representation with natural proportions, detailed features, and lifelike textures."
  else
    "Transform this image in a creative way."

/-- C5: the prompt resolver is a total pure function; each of the four
styles maps to its fixed non-empty instruction string and every other
input maps to the non-empty generic fallback. -/
theorem get_prompt_total (s : String)
    (h1 : s ≠ "Ghibli") (h2 : s ≠ "Minecraft")
    (h3 : s ≠ "Chicken-Jockey") (h4 : s ≠ "Humanize") :
    get_prompt_for_transformation "Ghibli"
      = "Transform this image into Studio Ghibli animation style with vibrant colors, whimsical elements, and a dreamy atmosphere." ∧
    get_prompt_for_transformation "Minecraft"
      = "Transform this image into Minecraft style with blocky pixelated texture, bright colors, and cubic shapes." ∧
    get_prompt_for_transformation "Chicken-Jockey"
      = "Transform this image into a blocky Minecraft-style character cool green zombie riding a chicken." ∧
    get_prompt_for_transformation "Humanize"
      = "Transform this image into a realistic human-like representation with natural proportions, detailed features, and lifelike textures." ∧
    get_prompt_for_transformation "Ghibli" ≠ "" ∧
    get_prompt_for_transformation "Minecraft" ≠ "" ∧
    get_prompt_for_transformation "Chicken-Jockey" ≠ "" ∧
    get_prompt_for_transformation "Humanize" ≠ "" ∧
    get_prompt_for_transformation s
      = "Transform this image in a creative way." ∧
    get_prompt_for_transformation s ≠ "" := by
  have hs : get_prompt_for_transformation s
      = "Transform this image in a creative way." := by
    simp [get_prompt_for_transformation, h1, h2, h3, h4]
  refine ⟨by decide, by decide, by decide, by decide,
          by decide, by decide, by decide, by decide, hs, ?_⟩
  rw [hs]
  decide

theorem get_prompt_total_witness :
    ("Watercolor" : String) ≠ "Ghibli" ∧
    ("Watercolor" : String) ≠ "Minecraft" ∧
    ("Watercolor" : String) ≠ "Chicken-Jockey" ∧
    ("Watercolor" : String) ≠ "Humanize" ∧
    (get_prompt_for_transformation "Watercolor"
        = "Transform this image in a creative way." ∧
     get_prompt_for_transformation "Watercolor" ≠ "") :=
  ⟨by decide, by decide, by decide, by decide,
   ((get_prompt_total "Watercolor" (by decide) (by decide) (by decide)
      (by decide)).2.2.2.2.2.2.2.2 : _)⟩

/-- One descriptor of the service response list; the code reads only
the url field of each item. -/
structure ResponseItem where
  url : String
deriving DecidableEq, Repr

/-- The request transform_image_with_openai sends to the external
service through client.images.edit (app.py lines 200-206). -/
structure EditRequest where
  model : String
  image : List Nat
  prompt : String
  n : Nat
  size : String

/-- transform_image_with_openai (app.py lines 180-214).  The external
service is an explicit input returning either a response list or an
exception message.  The result is the returned URL list together with
the error message reported through st.error, when any. -/
def transform_image_with_openai
    (service : EditRequest → Except String (List ResponseItem))
    (api_key : String) (image_data : List Nat) (style : String)
    (num_images : Nat) (size : String) : List String × Option String :=
  let prompt := get_prompt_for_transformation style
  match service ⟨"gpt-4o", image_data, prompt, num_images, size⟩ with
  | .ok data => (data.map ResponseItem.url, none)
  | .error e => ([], some ("Error transforming image: " ++ e))

/-- C6: on a successful service response the client returns the URL of
each item in response order (so a 4-item response yields a length-4
sequence), and when the external call raises, it returns the empty
sequence and reports the upstream message instead of propagating. -/
theorem transform_image_spec
    (service : EditRequest → Except String (List ResponseItem))
    (api_key : String) (image_data : List Nat) (style : String)
    (num_images : Nat) (size : String) :
    (∀ resp : List ResponseItem,
      service ⟨"gpt-4o", image_data, get_prompt_for_transformation style,
          num_images, size⟩ = Except.ok resp →
        transform_image_with_openai service api_key image_data style
            num_images size
          = (resp.map ResponseItem.url, none) ∧
        (transform_image_with_openai service api_key image_data style
            num_images size).1.length = resp.length) ∧
    (∀ e : String,
      service ⟨"gpt-4o", image_data, get_prompt_for_transformation style,
          num_images, size⟩ = Except.error e →
        transform_image_with_openai service api_key image_data style
            num_images size
          = ([], some ("Error transforming image: " ++ e))) := by
  constructor
  · intro resp hr
    simp [transform_image_with_openai, hr]
  · intro e he
    simp [transform_image_with_openai, he]

theorem transform_image_spec_witness :
    transform_image_with_openai
        (fun _ => Except.ok [⟨"u1"⟩, ⟨"u2"⟩, ⟨"u3"⟩, ⟨"u4"⟩])
        "key" [0] "Ghibli" 4 "1024x1024"
      = (["u1", "u2", "u3", "u4"], none) ∧
    (transform_image_with_openai
        (fun _ => Except.ok [⟨"u1"⟩, ⟨"u2"⟩, ⟨"u3"⟩, ⟨"u4"⟩])
        "key" [0] "Ghibli" 4 "1024x1024").1.length = 4 ∧
    transform_image_with_openai (fun _ => Except.error "boom")
        "key" [0] "Ghibli" 1 "1024x1024"
      = ([], some ("Error transforming image: " ++ "boom")) := by
  have hok := (transform_image_spec
      (fun _ => Except.ok [⟨"u1"⟩, ⟨"u2"⟩, ⟨"u3"⟩, ⟨"u4"⟩])
      "key" [0] "Ghibli" 4 "1024x1024").1
      [⟨"u1"⟩, ⟨"u2"⟩, ⟨"u3"⟩, ⟨"u4"⟩] rfl
  have herr := (transform_image_spec (fun _ => Except.error "boom")
      "key" [0] "Ghibli" 1 "1024x1024").2 "boom" rfl
  exact ⟨by simpa using hok.1, hok.2, herr⟩

/-- Outcome of the HTTP GET issued for one result URL (requests.get):
status code and body bytes. -/
structure FetchResponse where
  status_code : Nat
  content : List Nat
deriving DecidableEq, Repr

/-- Archive entry name used by the zip loop (app.py line 297): the
f-string uses the lowercased style and the 0-based loop index plus 1. -/
def zipEntryName (style : String) (i : Nat) : String :=
  style.toLower ++ "_transform_" ++ toString (i + 1) ++ ".png"

/-- Per-item failure message of the zip loop (app.py line 300). -/
def fetchErrorMsg (i : Nat) (code : Nat) : String :=
  "Failed to fetch image " ++ toString (i + 1) ++ ". Error code: "
    ++ toString code

/-- The enumerate loop of app.py lines 292-302, carrying the 0-based
index: a status-200 fetch appends a named entry to the archive, any
other status appends an error message and skips the item. -/
def packageLoop (fetch : String → FetchResponse) (style : String) :
    List String → Nat → List (String × List Nat) × List String
  | [], _ => ([], [])
  | url :: rest, i =>
      let r := fetch url
      let t := packageLoop fetch style rest (i + 1)
      if r.status_code = 200 then
        ((zipEntryName style i, r.content) :: t.1, t.2)
      else
        (t.1, fetchErrorMsg i r.status_code :: t.2)

/-- The zip packaging of app.py lines 288-307: the archive is the list
of written entries (name and bytes) in write order, together with the
per-item failure messages; a zipfile with zero writes is still a valid
empty archive, so no entry list is a failure. -/
def package (fetch : String → FetchResponse) (style : String)
    (urls : List String) : List (String × List Nat) × List String :=
  packageLoop fetch style urls 0

theorem packageLoop_entries (fetch : String → FetchResponse)
    (style : String) (urls : List String) (i : Nat) :
    (packageLoop fetch style urls i).1 =
      (List.enumFrom i urls).filterMap (fun p =>
        if (fetch p.2).status_code = 200 then
          some (zipEntryName style p.1, (fetch p.2).content)
        else none) ∧
    (packageLoop fetch style urls i).2 =
      (List.enumFrom i urls).filterMap (fun p =>
        if (fetch p.2).status_code = 200 then none
        else some (fetchErrorMsg p.1 (fetch p.2).status_code)) := by
  induction urls generalizing i with
  | nil => simp [packageLoop]
  | cons u rest ih =>
    by_cases h200 : (fetch u).status_code = 200 <;>
      simp [packageLoop, List.enumFrom, h200, ih]

/-- C7: packaging skips exactly the items whose fetch status is not
200, recording a failure for each, and names every written entry with
the lowercased style and the 1-based position of the item in the
originally requested sequence; in particular for three URLs whose
second fetch returns 404 the archive holds exactly the two entries
named with indices 1 and 3. -/
theorem package_partial_failure (fetch : String → FetchResponse)
    (style : String) (urls : List String) (u1 u2 u3 : String)
    (h1 : (fetch u1).status_code = 200)
    (h2 : (fetch u2).status_code = 404)
    (h3 : (fetch u3).status_code = 200) :
    (package fetch style urls).1 =
      urls.enum.filterMap (fun p =>
        if (fetch p.2).status_code = 200 then
          some (zipEntryName style p.1, (fetch p.2).content)
        else none) ∧
    (package fetch style urls).2 =
      urls.enum.filterMap (fun p =>
        if (fetch p.2).status_code = 200 then none
        else some (fetchErrorMsg p.1 (fetch p.2).status_code)) ∧
    (package fetch style [u1, u2, u3]).1 =
      [(zipEntryName style 0, (fetch u1).content),
       (zipEntryName style 2, (fetch u3).content)] ∧
    (package fetch style [u1, u2, u3]).1.map Prod.fst =
      [style.toLower ++ "_transform_" ++ "1" ++ ".png",
       style.toLower ++ "_transform_" ++ "3" ++ ".png"] ∧
    (package fetch style [u1, u2, u3]).1.length = 2 ∧
    (package fetch style [u1, u2, u3]).2 = [fetchErrorMsg 1 404] := by
  have e1 : zipEntryName style 0
      = style.toLower ++ "_transform_" ++ "1" ++ ".png" := rfl
  have e3 : zipEntryName style 2
      = style.toLower ++ "_transform_" ++ "3" ++ ".png" := rfl
  have hconc : (package fetch style [u1, u2, u3]).1 =
      [(zipEntryName style 0, (fetch u1).content),
       (zipEntryName style 2, (fetch u3).content)] := by
    simp [package, packageLoop, h1, h2, h3]
  refine ⟨?_, ?_, hconc, ?_, ?_, ?_⟩
  · simpa [package, List.enum] using
      (packageLoop_entries fetch style urls 0).1
  · simpa [package, List.enum] using
      (packageLoop_entries fetch style urls 0).2
  · rw [hconc]
    simp [e1, e3]
  · rw [hconc]
    rfl
  · simp [package, packageLoop, h1, h2, h3]

theorem package_partial_failure_witness :
    ((fun u => if u = "a" then FetchResponse.mk 200 [1]
               else if u = "b" then FetchResponse.mk 404 []
               else FetchResponse.mk 200 [3]) "a").status_code = 200 ∧
    ((fun u => if u = "a" then FetchResponse.mk 200 [1]
               else if u = "b" then FetchResponse.mk 404 []
               else FetchResponse.mk 200 [3]) "b").status_code = 404 ∧
    ((fun u => if u = "a" then FetchResponse.mk 200 [1]
               else if u = "b" then FetchResponse.mk 404 []
               else FetchResponse.mk 200 [3]) "c").status_code = 200 ∧
    ((package (fun u => if u = "a" then FetchResponse.mk 200 [1]
               else if u = "b" then FetchResponse.mk 404 []
               else FetchResponse.mk 200 [3]) "Ghibli"
        ["a", "b", "c"]).1.length = 2 ∧
     (package (fun u => if u = "a" then FetchResponse.mk 200 [1]
               else if u = "b" then FetchResponse.mk 404 []
               else FetchResponse.mk 200 [3]) "Ghibli"
        ["a", "b", "c"]).2 = [fetchErrorMsg 1 404]) :=
  ⟨by decide, by decide, by decide,
   (package_partial_failure
      (fun u => if u = "a" then FetchResponse.mk 200 [1]
                else if u = "b" then FetchResponse.mk 404 []
                else FetchResponse.mk 200 [3])
      "Ghibli" ["a", "b", "c"] "a" "b" "c"
      (by decide) (by decide) (by decide)).2.2.2.2.1,
   (package_partial_failure
      (fun u => if u = "a" then FetchResponse.mk 200 [1]
                else if u = "b" then FetchResponse.mk 404 []
                else FetchResponse.mk 200 [3])
      "Ghibli" ["a", "b", "c"] "a" "b" "c"
      (by decide) (by decide) (by decide)).2.2.2.2.2⟩

theorem packageLoop_all_failed (fetch : String → FetchResponse)
    (style : String) : ∀ (urls : List String) (i : Nat),
    (∀ u ∈ urls, (fetch u).status_code ≠ 200) →
    (packageLoop fetch style urls i).1 = []
  | [], _, _ => by simp [packageLoop]
  | u :: rest, i, h => by
      have hu : (fetch u).status_code ≠ 200 := h u (by simp)
      simp [packageLoop, hu]
      exact packageLoop_all_failed fetch style rest (i + 1)
        (fun v hv => h v (by simp [hv]))

/-- C8: when no fetch succeeds the packaging loop writes zero entries
and the result is the valid zero-entry archive, not a failure (the
embedding is a total function, as the zip loop never aborts). -/
theorem package_zero_success (fetch : String → FetchResponse)
    (style : String) (urls : List String)
    (h : ∀ u ∈ urls, (fetch u).status_code ≠ 200) :
    (package fetch style urls).1 = [] :=
  packageLoop_all_failed fetch style urls 0 h

theorem package_zero_success_witness :
    (∀ u ∈ (["x", "y"] : List String),
      ((fun _ => FetchResponse.mk 404 []) u).status_code ≠ 200) ∧
    (package (fun _ => FetchResponse.mk 404 []) "Minecraft"
        ["x", "y"]).1 = [] :=
  ⟨by decide,
   package_zero_success (fun _ => FetchResponse.mk 404 []) "Minecraft"
     ["x", "y"] (by decide)⟩

/-- Observable outcome of one main_page dispatch: whether the
transformation client was invoked and the warnings shown. -/
structure MainPageTrace where
  calledTransform : Bool
  warnings : List String
deriving DecidableEq, Repr

/-- The submission dispatch of main_page (app.py lines 233 and
317-320).  The Python truthiness tests are modelled exactly: an
uploaded file object is truthy exactly when present, and the api_key
string is truthy exactly when non-empty.  The transformation branch is
abstracted to the fact that transform_image_with_openai is invoked. -/
def main_page (submitted : Bool) (uploaded_file : Option (List Nat))
    (api_key : String) : MainPageTrace :=
  if submitted = true ∧ uploaded_file ≠ none ∧ api_key ≠ "" then
    ⟨true, []⟩
  else if submitted = true ∧ uploaded_file = none then
    ⟨false, ["Please upload an image to transform."]⟩
  else if submitted = true ∧ api_key = "" then
    ⟨false, ["Please provide your OpenAI API key."]⟩
  else
    ⟨false, []⟩

/-- C9: a submission with no uploaded image, or with a missing API key,
never invokes the transformation client and surfaces a user-visible
warning instead. -/
theorem main_page_validation (uploaded_file : Option (List Nat))
    (api_key : String)
    (h : uploaded_file = none ∨ api_key = "") :
    (main_page true uploaded_file api_key).calledTransform = false ∧
    (main_page true uploaded_file api_key).warnings ≠ [] := by
  rcases h with h | h
  · subst h
    simp [main_page]
  · subst h
    cases uploaded_file <;> simp [main_page]

theorem main_page_validation_witness :
    ((none : Option (List Nat)) = none ∨ ("sk-key" : String) = "") ∧
    ((main_page true none "sk-key").calledTransform = false ∧
     (main_page true none "sk-key").warnings ≠ []) :=
  ⟨Or.inl rfl, main_page_validation none "sk-key" (Or.inl rfl)⟩

end Aura
